import Mathlib

/-!
Shallow embedding of the txrest request-dispatch engine
(src/txrest/__init__.py) and its JSON / XML codec subclasses
(src/txrest/json.py, src/txrest/xml.py), with theorems checking the
natural-language specification against the code.

Conventions of the embedding:
* Python byte strings are modelled as Lean `String`s (all inputs of
  interest are ASCII, where the py2 str/bytes distinction is invisible).
* A Python function that can raise is modelled as returning
  `Except PyErr α`.
* Library routines that live outside this repository (json.loads,
  etree.fromstring) are abstracted as function parameters; routines of
  the repository itself are translated clause by clause.
-/

/-- Python exceptions that the engine's code paths can raise or catch. -/
inductive PyErr where
  | valueError (msg : String)
  | indexError
  | nameError (name : String)
  | otherError (msg : String)
deriving Repr, DecidableEq

/-- CPython floats as far as the claims need them: the only distinction the
    code makes is finite versus the three non-finite values (json.dumps
    with allow_nan=False rejects exactly nan, inf and -inf). Finite floats are
    carried abstractly as integers. -/
inductive PyFloat where
  | finite (n : Int)
  | nan
  | inf
  | ninf
deriving Repr, DecidableEq

/-- True for the finite constructor only. -/
def PyFloat.isFinite : PyFloat → Bool
  | .finite _ => true
  | _ => false

/-- Python values that flow through the JSON codec: the result of
    json.loads and the argument of json.dumps. A dict is modelled as its
    key/value pairs in CPython iteration order (py2 dict iteration order
    depends on hashes and insertion history, so two dicts that are equal
    as mappings can carry different orders). -/
inductive JVal where
  | pynone
  | bool (b : Bool)
  | int (n : Int)
  | float (f : PyFloat)
  | str (s : String)
  | list (xs : List JVal)
  | dict (kvs : List (String × JVal))

mutual

/-- Structural (python ==) equality of JSON values. -/
def JVal.beq : JVal → JVal → Bool
  | .pynone, .pynone => true
  | .bool a, .bool b => a = b
  | .int a, .int b => a = b
  | .float a, .float b => a = b
  | .str a, .str b => a = b
  | .list xs, .list ys => JVal.beqList xs ys
  | .dict a, .dict b => JVal.beqItems a b
  | _, _ => false

/-- Elementwise equality of JSON lists. -/
def JVal.beqList : List JVal → List JVal → Bool
  | [], [] => true
  | x :: xs, y :: ys => JVal.beq x y && JVal.beqList xs ys
  | _, _ => false

/-- Pairwise equality of dict entries in order. -/
def JVal.beqItems : List (String × JVal) → List (String × JVal) → Bool
  | [], [] => true
  | (k1, v1) :: xs, (k2, v2) :: ys => k1 = k2 && JVal.beq v1 v2 && JVal.beqItems xs ys
  | _, _ => false

end

/-- Dictionary lookup: first binding of the key, as py2 dict indexing. -/
def dictGet (k : String) : List (String × JVal) → Option JVal
  | [] => Option.none
  | (k2, v) :: rest => if k = k2 then some v else dictGet k rest

/-- Equality of optional JSON values. -/
def optBeq : Option JVal → Option JVal → Bool
  | Option.none, Option.none => true
  | some a, some b => JVal.beq a b
  | _, _ => false

/-- Two dicts are equal as key/value mappings (order ignored): each key of
    either dict looks up to the same value in both. -/
def dictEquiv (a b : List (String × JVal)) : Bool :=
  (a.all fun kv => optBeq (dictGet kv.1 a) (dictGet kv.1 b)) &&
  (b.all fun kv => optBeq (dictGet kv.1 a) (dictGet kv.1 b))

/-- State shared by JsonErrorPage and XmlErrorPage (json.py lines 63-83,
    xml.py lines 85-105): both constructors store status, brief, detail,
    encoding and the log flag unchanged. -/
structure ErrorPage where
  code : Nat
  brief : String
  detail : String
  log : Bool
deriving Repr, DecidableEq

/-- The host policy bit the renderers read:
    request.site.displayTracebacks. -/
structure Site where
  displayTracebacks : Bool
deriving Repr, DecidableEq

/-- NFKD normalisation followed by a byte encode with errors ignored
    (xml.py line 121). On the ASCII strings the engine passes this is the
    identity, which is how it is modelled. -/
def nfkdEncode (s : String) : String := s

/-- JsonErrorPage.render (json.py lines 86-124): the response dict that is
    serialised to the client. The dict is built with code, error and
    detail entries, and detail is overwritten with None when
    request.site.displayTracebacks is false. The `if self.log` block only
    writes to the twisted log (its locals brief/detail do not feed the
    response), so it is not modelled; json.dumps of this dict (sort_keys,
    indent=4) is serialisation of exactly these bindings. -/
def JsonErrorPage.renderDict (p : ErrorPage) (site : Site) : List (String × JVal) :=
  let response := [("code", JVal.int p.code),
                   ("error", JVal.str p.brief),
                   ("detail", JVal.str p.detail)]
  if !site.displayTracebacks then
    [("code", JVal.int p.code),
     ("error", JVal.str p.brief),
     ("detail", JVal.pynone)]
  else
    response

/-- The rendered XML error document (xml.py lines 129-132): the text
    placed into the code, brief and detail elements of XML_TEMPLATE.
    detail is an Option: None models an empty element. -/
structure XmlErrorDoc where
  code : String
  brief : String
  detail : Option String
deriving Repr, DecidableEq

/-- XmlErrorPage.render (xml.py lines 108-139), translated statement by
    statement. Note the source reuses the local variable `detail`: it is
    first policy-gated (lines 113-115) and then, when self.log is true,
    reassigned to the normalised self.detail for the log message
    (line 121) — and that reassigned value is what line 132 stores into
    the document. -/
def XmlErrorPage.render (p : ErrorPage) (site : Site) : XmlErrorDoc :=
  let detail : Option String := some p.detail
  let detail := if !site.displayTracebacks then Option.none else detail
  let detail := if p.log then some (nfkdEncode p.detail) else detail
  { code := toString p.code, brief := p.brief, detail := detail }

/-- py2 str.lstrip() whitespace set (space, tab, newline, CR, VT, FF). -/
def pyIsSpace (c : Char) : Bool :=
  c = ' ' || c = '\t' || c = '\n' || c = '\x0d' || c = '\x0b' || c = '\x0c'

/-- body.lstrip(): drop leading whitespace characters. -/
def pyLstrip (s : String) : String :=
  String.mk (s.data.dropWhile pyIsSpace)

/-- s[:n] — a python slice of the first n characters. -/
def pyTake (n : Nat) (s : String) : String :=
  String.mk (s.data.take n)

/-- str.startswith(pre), on the character lists. -/
def pyStartswith (s pre : String) : Bool :=
  pre.data.isPrefixOf s.data

/-- The ValueError message json.dumps raises on nan or (-)inf when
    allow_nan=False (CPython json encoder). -/
def outOfRangeMsg : String := "Out of range float values are not JSON compliant"

/-- float repr used by the json encoder for finite floats, abstracted on
    the integer carrier. -/
def dumpsFloat (allow_nan : Bool) (f : PyFloat) : Except PyErr String :=
  match f with
  | .finite n => .ok (toString n ++ ".0")
  | .nan => if allow_nan then .ok "NaN" else .error (.valueError outOfRangeMsg)
  | .inf => if allow_nan then .ok "Infinity" else .error (.valueError outOfRangeMsg)
  | .ninf => if allow_nan then .ok "-Infinity" else .error (.valueError outOfRangeMsg)

mutual

/-- json.dumps as called at json.py line 202: allow_nan is passed
    explicitly (False there), sort_keys is not passed and so defaults to
    False, hence object keys are emitted in the dict's iteration order.
    String escaping is not modelled (the values of interest contain no
    escapes); check_circular / ensure_ascii / encoding only affect
    performance and the str/unicode carrier. -/
def json_dumps (allow_nan : Bool) : JVal → Except PyErr String
  | .pynone => .ok "null"
  | .bool b => .ok (if b then "true" else "false")
  | .int n => .ok (toString n)
  | .float f => dumpsFloat allow_nan f
  | .str s => .ok ("\x22" ++ s ++ "\x22")
  | .list xs => do
      let parts ← json_dumpsList allow_nan xs
      .ok ("[" ++ String.intercalate ", " parts ++ "]")
  | .dict kvs => do
      let parts ← json_dumpsItems allow_nan kvs
      .ok ("\x7b" ++ String.intercalate ", " parts ++ "\x7d")

/-- Serialise the elements of a JSON array in order; the first failing
    element aborts the whole dump, as in the CPython encoder. -/
def json_dumpsList (allow_nan : Bool) : List JVal → Except PyErr (List String)
  | [] => .ok []
  | x :: xs => do
      let s ← json_dumps allow_nan x
      let rest ← json_dumpsList allow_nan xs
      .ok (s :: rest)

/-- Serialise dict entries in iteration order as key: value pairs. -/
def json_dumpsItems (allow_nan : Bool) : List (String × JVal) → Except PyErr (List String)
  | [] => .ok []
  | (k, v) :: kvs => do
      let s ← json_dumps allow_nan v
      let rest ← json_dumpsItems allow_nan kvs
      .ok (("\x22" ++ k ++ "\x22" ++ ": " ++ s) :: rest)

end

/-- An element-tree node, the value etree.fromstring produces. The claims
    never inspect its contents, only whether the codec hands it on. -/
inductive XmlElem where
  | elem (tag : String) (children : List XmlElem)

/-- A python object as seen by the dispatch engine: a JSON-shaped value,
    an element-tree node, or None. -/
inductive PyObj where
  | jval (v : JVal)
  | xml (e : XmlElem)
  | pynone

/-- JsonResource._format_post (json.py lines 212-235). `loads` abstracts
    json.loads of the standard library. Line 228 indexes
    body.lstrip()[0]: on an empty lstrip result the indexing raises
    IndexError; otherwise the first character is tested against the tuple
    of valid start characters and a ValueError raised on mismatch, in
    both cases before json.loads is ever consulted. -/
def JsonResource._format_post (loads : String → Except PyErr JVal)
    (body : String) : Except PyErr JVal :=
  match (pyLstrip body).data with
  | [] => .error .indexError
  | cha :: _ =>
      if cha = '{' || cha = '[' then
        loads body
      else
        .error (.valueError
          ("Invalid JSON first character != \x7b or [... \nGot: " ++ pyTake 60 body ++ " ..."))

/-- XmlResource._format_post (xml.py lines 154-173). `fromstring`
    abstracts etree.fromstring. After the fast prefix check the source
    binds `body_data = etree.fromstring(body)` but the function has no
    return statement, so its value is None — the model returns exactly
    that. -/
def XmlResource._format_post (fromstring : String → Except PyErr XmlElem)
    (body : String) : Except PyErr PyObj :=
  let start := pyTake 5 (pyLstrip body)
  if !(pyStartswith start "<?xml") then
    .error (.valueError
      ("Invalid XML post body does not start with != <?xml... \nGot: " ++ pyTake 60 body ++ " ..."))
  else
    match fromstring body with
    | .error e => .error e
    | .ok _body_data => .ok PyObj.pynone

/-- JsonResource._format_response (json.py lines 188-209):
    json.dumps(response, allow_nan=False, check_circular=False,
    ensure_ascii=False, encoding=encoding).encode(encoding); the final
    encode to bytes is the identity on this model's String carrier. -/
def JsonResource._format_response (v : JVal) : Except PyErr String :=
  json_dumps false v

/-- Constants from src/txrest/__init__.py and twisted.web.http. -/
def RECURSION_DEPTH : Nat := 5

/-- twisted.web.http.BAD_REQUEST. -/
def BAD_REQUEST : Nat := 400

/-- twisted.web.http.INTERNAL_SERVER_ERROR. -/
def INTERNAL_SERVER_ERROR : Nat := 500

/-- The subclass state RestResource.render consults.
    restHandlers: the HTTP verbs X for which a function rest_X is defined
    on the class — getattr resolves such names (__init__.py line 143) and
    prefixedMethodNames enumerates exactly the function-valued rest_
    attributes in _allowed_methods (line 355).
    hasRest: a catch-all `rest` method is defined (lines 145-146).
    allowedMethodsAttr: self.allowedMethods when that attribute is a list
    or tuple (line 151).
    format_post: the subclass's _format_post with request and encoding
    already applied. Resolved handlers are callable by construction (the
    guard at line 157 concerns non-function attributes, which this model
    does not represent). -/
structure Resource where
  restHandlers : List String
  hasRest : Bool
  allowedMethodsAttr : Option (List String)
  format_post : String → Except PyErr PyObj

/-- The inbound request data render reads: the HTTP method string and
    the result of request.content.read() (line 172), which can raise. -/
structure RequestIn where
  method : String
  contentRead : Except PyErr String

/-- The observable outcome of RestResource.render:
    raise UnsupportedMethod(allowed_methods) (line 155); return
    ERROR_CLASS(code, brief, err).render(request) (lines 160, 176, 183);
    or install the deferred continuations for the resolved handler called
    with call_args and return NOT_DONE_YET (lines 191-201). -/
inductive RenderOutcome where
  | unsupportedMethod (allowed : List String)
  | errorPage (code : Nat) (brief : String)
  | notDoneYet (methodCalled : String) (decodedBody : Option PyObj)

/-- RestResource._allowed_methods (lines 345-362): the list ['HEAD'] with
    the rest_-prefixed method names of the class appended. -/
def RestResource._allowed_methods (r : Resource) : List String :=
  "HEAD" :: r.restHandlers

/-- RestResource.render (lines 129-201). Lines 137-140 (started,
    recursion := 0, header priming) touch only request metadata and are
    modelled where observable (renderChain); the remainder is translated
    branch by branch: handler resolution with catch-all fallback,
    UnsupportedMethod with the allowed-methods payload, POST/PUT body
    read and _format_post with both failure paths mapped to a 400
    Malformed HTTP BODY page, and handler invocation with or without a
    decoded body. -/
def RestResource.render (r : Resource) (req : RequestIn) : RenderOutcome :=
  if !(r.restHandlers.contains req.method) && !r.hasRest then
    match r.allowedMethodsAttr with
    | some l => .unsupportedMethod l
    | Option.none => .unsupportedMethod (RestResource._allowed_methods r)
  else
    if req.method = "POST" || req.method = "PUT" then
      match req.contentRead with
      | .error _ => .errorPage BAD_REQUEST "Malformed HTTP BODY"
      | .ok body =>
          match r.format_post body with
          | .error _ => .errorPage BAD_REQUEST "Malformed HTTP BODY"
          | .ok bd =>
              .notDoneYet
                (if r.restHandlers.contains req.method then "rest_" ++ req.method else "rest")
                (some bd)
    else
      .notDoneYet
        (if r.restHandlers.contains req.method then "rest_" ++ req.method else "rest")
        Option.none

/-- RestResource.render_HEAD (lines 116-127): returns the empty string.
    Nothing reaches it: twisted's Request.render invokes resource.render
    directly, and RestResource.render above never dispatches to
    render_HEAD, so a HEAD request flows through the ordinary pipeline. -/
def RestResource.render_HEAD : String := ""

/-- The connection-facing request state the continuations mutate:
    the finished flag (set by request.finish), the ordered list of
    request.write payloads, how many times finish was called, the
    response code last set by an ErrorPage render, and the recursion
    counter. Headers are buffered request metadata, not writes, and are
    not tracked. -/
structure Conn where
  finished : Bool
  writes : List String
  finishCount : Nat
  responseCode : Option Nat
  recursion : Nat
deriving Repr, DecidableEq

/-- request.write(s): append a payload to the connection. -/
def Request.write (c : Conn) (s : String) : Conn :=
  { c with writes := c.writes ++ [s] }

/-- request.finish(): close the response; twisted sets request.finished. -/
def Request.finish (c : Conn) : Conn :=
  { c with finished := true, finishCount := c.finishCount + 1 }

/-- The format-specific capabilities the continuations dispatch through:
    isinstance(response, HANDLE_TYPES); the subclass _format_response;
    and the page text ERROR_CLASS(code, brief, detail).render(request)
    returns. Both concrete ERROR_CLASS renders only set the response code
    and headers on the request and hand back a string, which is how
    errRender below uses errPageBody. -/
structure Format where
  isHandled : PyObj → Bool
  format_response : PyObj → Except PyErr String
  errPageBody : Nat → String → String → String

/-- ERROR_CLASS(code, brief, detail).render(request): records the status
    code on the request and yields the page text. -/
def errRender (fmt : Format) (code : Nat) (brief detail : String) (c : Conn) :
    String × Conn :=
  (fmt.errPageBody code brief detail, { c with responseCode := some code })

/-- What the deferred delivers to on_response: a plain value, or a
    twisted Resource instance (the nested-resource case). -/
inductive HResponse where
  | obj (v : PyObj)
  | resource

/-- Whether on_response scheduled a reactor.callLater(0, request.render,
    response) re-entry (line 256). -/
inductive Next where
  | noAction
  | scheduledRender
deriving Repr, DecidableEq

/-- RestResource.on_response (lines 203-268), translated branch by
    branch. finished guard (215-218); HANDLE_TYPES branch with
    _format_response and the serialization-failure ErrorPage fallback,
    then content-length, write, finish (222-241); nested-resource branch
    (243-256): at depth >= RECURSION_DEPTH line 253 evaluates
    failure.Failure(exc), but the module never imports
    twisted.python.failure, so the bare name `failure` raises NameError
    before processingFailed can run — below the bound the counter is
    incremented and a render re-entry scheduled; otherwise the
    unsupported-type ErrorPage is written (258-268). -/
def RestResource.on_response (fmt : Format) (response : HResponse) (c : Conn) :
    Except PyErr (Conn × Next) :=
  if c.finished then
    .ok (c, Next.noAction)
  else
    match response with
    | .obj v =>
        if fmt.isHandled v then
          let p :=
            match fmt.format_response v with
            | .ok s => (s, c)
            | .error _ =>
                errRender fmt INTERNAL_SERVER_ERROR "Resource Error"
                  "Output serialization failed" c
          .ok (Request.finish (Request.write p.2 p.1), Next.noAction)
        else
          let p := errRender fmt INTERNAL_SERVER_ERROR "Resource Error"
            "returned unsupported type" c
          .ok (Request.finish (Request.write p.2 p.1), Next.noAction)
    | .resource =>
        let depth := c.recursion
        if RECURSION_DEPTH ≤ depth then
          .error (.nameError "failure")
        else
          .ok ({ c with recursion := c.recursion + 1 }, Next.scheduledRender)

/-- The failure classes on_failure distinguishes (lines 281, 285, 305):
    CancelledError, _DefGen_Return, and everything else, the latter two
    carrying the failure message. -/
inductive FailureV where
  | cancelled
  | defGenReturn (msg : String)
  | other (msg : String)

/-- RestResource.on_failure (lines 271-319), translated branch by branch.
    The page text rstr is computed first: the cancellation string, or an
    ERROR_CLASS page for the generator-misuse diagnostic (the long
    dedented brief is abbreviated to its first line) or for Unhandled
    Error. Only then is request.finished consulted (line 315): when set,
    the method returns without writing; otherwise rstr is written and the
    request finished. -/
def RestResource.on_failure (fmt : Format) (f : FailureV) (c : Conn) : Conn :=
  let p :=
    match f with
    | .cancelled => ("Request was cancelled", c)
    | .defGenReturn msg =>
        errRender fmt INTERNAL_SERVER_ERROR
          "Received a Deferred Generator Response from Resource" msg c
    | .other msg =>
        errRender fmt INTERNAL_SERVER_ERROR "Unhandled Error"
          ("Exception in Resource - " ++ msg) c
  if p.2.finished then p.2
  else Request.finish (Request.write p.2 p.1)

/-- Execution of one request whose handler chain returns `n` nested
    RestResources before a terminal value d: render (line 129) is
    entered and resets request.recursion to 0 (line 138), the synchronous
    handler runs under maybeDeferred and its result reaches on_response
    (line 192). When on_response schedules reactor.callLater(0,
    request.render, nested) (line 256), the next reactor tick re-enters
    render on the nested resource with the same request object — the
    recursive call here, which again performs the line-138 reset. -/
def renderChain (fmt : Format) (d : PyObj) : Nat → Conn → Except PyErr (Conn × Next)
  | 0, c =>
      RestResource.on_response fmt (HResponse.obj d) { c with recursion := 0 }
  | Nat.succ m, c =>
      match RestResource.on_response fmt HResponse.resource { c with recursion := 0 } with
      | .error e => .error e
      | .ok (c2, Next.scheduledRender) => renderChain fmt d m c2
      | .ok (c2, Next.noAction) => .ok (c2, Next.noAction)

/-- HANDLE_TYPES of JsonResource (json.py line 185): dict, list, tuple —
    tuples serialize as lists and share the list model. -/
def jsonIsHandled : PyObj → Bool
  | .jval (JVal.dict _) => true
  | .jval (JVal.list _) => true
  | _ => false

/-- The Format record of a JsonResource, with the ErrorPage body text
    abstracted (no claim inspects the error page text itself). -/
def jsonFormat (errPageBody : Nat → String → String → String) : Format :=
  { isHandled := jsonIsHandled,
    format_response := fun o =>
      match o with
      | .jval v => JsonResource._format_response v
      | _ => .error (.otherError "not a json value"),
    errPageBody := errPageBody }

mutual

/-- A value contains a non-finite float somewhere inside it. -/
def containsNF : JVal → Bool
  | .float f => !f.isFinite
  | .list xs => containsNFList xs
  | .dict kvs => containsNFItems kvs
  | _ => false

/-- Some element of the list contains a non-finite float. -/
def containsNFList : List JVal → Bool
  | [] => false
  | x :: xs => containsNF x || containsNFList xs

/-- Some value of the dict contains a non-finite float. -/
def containsNFItems : List (String × JVal) → Bool
  | [] => false
  | (_, v) :: kvs => containsNF v || containsNFItems kvs

end

/-- A json.loads stand-in that accepts every body; the claims that use it
    never reach the full parse, so its value is immaterial. -/
def jlOk : String → Except PyErr JVal := fun _ => Except.ok JVal.pynone

/-- An etree.fromstring stand-in that parses every body to the single
    element <a/>. -/
def fsOk : String → Except PyErr XmlElem := fun _ => Except.ok (XmlElem.elem "a" [])

/-- A JsonResource defining only rest_POST: its _format_post is
    JsonResource._format_post, the decoded value wrapped for dispatch. -/
def jsonPostRes (jl : String → Except PyErr JVal) : Resource :=
  { restHandlers := ["POST"], hasRest := false, allowedMethodsAttr := Option.none,
    format_post := fun b => (JsonResource._format_post jl b).map PyObj.jval }

/-- An XmlResource defining only rest_POST. -/
def xmlPostRes (fs : String → Except PyErr XmlElem) : Resource :=
  { restHandlers := ["POST"], hasRest := false, allowedMethodsAttr := Option.none,
    format_post := XmlResource._format_post fs }

/-- Helper: with POST or PUT and a resolvable handler, a failure of
    request.content.read() renders the 400 Malformed HTTP BODY page
    (__init__.py lines 171-176). -/
theorem render_read_error (r : Resource) (req : RequestIn) (e : PyErr)
    (hm : req.method = "POST" ∨ req.method = "PUT")
    (hres : (r.restHandlers.contains req.method || r.hasRest) = true)
    (hread : req.contentRead = Except.error e) :
    RestResource.render r req = RenderOutcome.errorPage BAD_REQUEST "Malformed HTTP BODY" := by
  rcases hm with hm | hm <;>
    cases hc : r.restHandlers.contains req.method <;>
    cases hr : r.hasRest <;>
    simp_all [RestResource.render]

/-- Helper: with POST or PUT and a resolvable handler, a failure raised
    by _format_post renders the 400 Malformed HTTP BODY page
    (__init__.py lines 178-183). -/
theorem render_decode_error (r : Resource) (req : RequestIn) (body : String) (e : PyErr)
    (hm : req.method = "POST" ∨ req.method = "PUT")
    (hres : (r.restHandlers.contains req.method || r.hasRest) = true)
    (hread : req.contentRead = Except.ok body)
    (hdec : r.format_post body = Except.error e) :
    RestResource.render r req = RenderOutcome.errorPage BAD_REQUEST "Malformed HTTP BODY" := by
  rcases hm with hm | hm <;>
    cases hc : r.restHandlers.contains req.method <;>
    cases hr : r.hasRest <;>
    simp_all [RestResource.render]

/-- Helper: with POST or PUT, a resolvable handler and both read and
    decode succeeding, the handler is invoked with the decoded body
    (__init__.py lines 185-201). -/
theorem render_decode_ok (r : Resource) (req : RequestIn) (body : String) (v : PyObj)
    (hm : req.method = "POST" ∨ req.method = "PUT")
    (hres : (r.restHandlers.contains req.method || r.hasRest) = true)
    (hread : req.contentRead = Except.ok body)
    (hdec : r.format_post body = Except.ok v) :
    RestResource.render r req =
      RenderOutcome.notDoneYet
        (if r.restHandlers.contains req.method then "rest_" ++ req.method else "rest")
        (some v) := by
  rcases hm with hm | hm <;>
    cases hc : r.restHandlers.contains req.method <;>
    cases hr : r.hasRest <;>
    simp_all [RestResource.render]

/-- C1: once the request's finished flag is set, a later invocation of
    the success continuation on_response or the failure continuation
    on_failure performs no write and no finish: on_response returns the
    connection state unchanged without scheduling anything, and
    on_failure leaves the write list, the finish count and the finished
    flag untouched — for every format, every response value and every
    failure class. -/
theorem c1_finished_is_noop (fmt : Format) (resp : HResponse) (f : FailureV) (c : Conn)
    (h : c.finished = true) :
    RestResource.on_response fmt resp c = Except.ok (c, Next.noAction) ∧
    (RestResource.on_failure fmt f c).writes = c.writes ∧
    (RestResource.on_failure fmt f c).finishCount = c.finishCount ∧
    (RestResource.on_failure fmt f c).finished = true := by
  refine ⟨?_, ?_, ?_, ?_⟩
  · simp [RestResource.on_response, h]
  · cases f <;> simp [RestResource.on_failure, errRender, h]
  · cases f <;> simp [RestResource.on_failure, errRender, h]
  · cases f <;> simp [RestResource.on_failure, errRender, h]

/-- Witness for c1_finished_is_noop at a concrete finished connection, a
    nested-resource response at depth 7 and an arbitrary exception. -/
theorem c1_finished_is_noop_witness :
    RestResource.on_response (jsonFormat fun _ _ _ => "") HResponse.resource
        { finished := true, writes := ["x"], finishCount := 1,
          responseCode := Option.none, recursion := 7 }
      = Except.ok ({ finished := true, writes := ["x"], finishCount := 1,
                     responseCode := Option.none, recursion := 7 }, Next.noAction) ∧
    (RestResource.on_failure (jsonFormat fun _ _ _ => "") (FailureV.other "boom")
        { finished := true, writes := ["x"], finishCount := 1,
          responseCode := Option.none, recursion := 7 }).writes = ["x"] ∧
    (RestResource.on_failure (jsonFormat fun _ _ _ => "") (FailureV.other "boom")
        { finished := true, writes := ["x"], finishCount := 1,
          responseCode := Option.none, recursion := 7 }).finishCount = 1 ∧
    (RestResource.on_failure (jsonFormat fun _ _ _ => "") (FailureV.other "boom")
        { finished := true, writes := ["x"], finishCount := 1,
          responseCode := Option.none, recursion := 7 }).finished = true :=
  c1_finished_is_noop _ _ _ _ rfl

/-- C2 (code bug): a handler chain of 6 nested RestResources — depth
    beyond the bound RECURSION_DEPTH = 5 — completes normally with a
    single write and a single finish instead of failing with the
    recursion-limit error: every re-entered render resets
    request.recursion to 0 (__init__.py line 138), so the depth check at
    line 250 never sees a value above 1. -/
theorem c2_deep_nesting_completes_normally :
    renderChain (jsonFormat fun _ _ _ => "") (PyObj.jval (JVal.dict [("a", JVal.int 1)])) 6
        { finished := false, writes := [], finishCount := 0,
          responseCode := Option.none, recursion := 0 }
      = Except.ok ({ finished := true, writes := ["\x7b\x22a\x22: 1\x7d"], finishCount := 1,
                     responseCode := Option.none, recursion := 0 }, Next.noAction) := by
  rfl

/-- C4: when neither a verb-specific rest_METHOD handler nor the
    catch-all rest handler exists (and no allowedMethods attribute is
    configured), render raises UnsupportedMethod whose allowed-methods
    payload is exactly the set of verbs with a verb-specific handler
    plus HEAD. -/
theorem c4_unsupported_method_payload (r : Resource) (req : RequestIn)
    (hnm : r.restHandlers.contains req.method = false)
    (hnc : r.hasRest = false)
    (hattr : r.allowedMethodsAttr = Option.none) :
    RestResource.render r req = RenderOutcome.unsupportedMethod ("HEAD" :: r.restHandlers) ∧
    ∀ v, v ∈ ("HEAD" :: r.restHandlers) ↔ (v = "HEAD" ∨ v ∈ r.restHandlers) := by
  constructor
  · simp_all [RestResource.render, RestResource._allowed_methods]
  · intro v
    exact List.mem_cons

/-- Witness for c4_unsupported_method_payload: a POST to a resource with
    handlers rest_GET and rest_DELETE only. -/
theorem c4_unsupported_method_payload_witness :
    RestResource.render
        { restHandlers := ["GET", "DELETE"], hasRest := false,
          allowedMethodsAttr := Option.none,
          format_post := fun _ => Except.error PyErr.indexError }
        { method := "POST", contentRead := Except.ok "" }
      = RenderOutcome.unsupportedMethod ["HEAD", "GET", "DELETE"] ∧
    ∀ v, v ∈ ["HEAD", "GET", "DELETE"] ↔ (v = "HEAD" ∨ v ∈ ["GET", "DELETE"]) :=
  c4_unsupported_method_payload _ _ rfl rfl rfl

/-- C5 (code bug): render_HEAD does return the empty string, but nothing
    dispatches to it — RestResource.render overrides the base-class
    per-verb dispatch, so a HEAD request flows through the ordinary
    pipeline: on a resource with a catch-all rest handler the handler IS
    invoked for HEAD instead of the claimed empty-body bypass. -/
theorem c5_head_goes_through_dispatch :
    RestResource.render_HEAD = "" ∧
    RestResource.render
        { restHandlers := [], hasRest := true, allowedMethodsAttr := Option.none,
          format_post := fun _ => Except.error PyErr.indexError }
        { method := "HEAD", contentRead := Except.ok "" }
      = RenderOutcome.notDoneYet "rest" Option.none :=
  ⟨rfl, rfl⟩

/-- C3: for POST and PUT requests, a failure reading the raw body and a
    failure of the codec decode step _format_post each render the 400
    Malformed HTTP BODY error page — never a 500 — and the handler is
    only ever invoked when both the read and the decode succeeded. -/
theorem c3_body_failures_give_400 (r : Resource) (req : RequestIn)
    (hm : req.method = "POST" ∨ req.method = "PUT")
    (hres : (r.restHandlers.contains req.method || r.hasRest) = true) :
    (∀ e, req.contentRead = Except.error e →
        RestResource.render r req = RenderOutcome.errorPage 400 "Malformed HTTP BODY") ∧
    (∀ body e, req.contentRead = Except.ok body → r.format_post body = Except.error e →
        RestResource.render r req = RenderOutcome.errorPage 400 "Malformed HTTP BODY") ∧
    (∀ mc bd, RestResource.render r req = RenderOutcome.notDoneYet mc bd →
        ∃ body v, req.contentRead = Except.ok body ∧ r.format_post body = Except.ok v ∧
          bd = some v) := by
  refine ⟨?_, ?_, ?_⟩
  · intro e hread
    exact render_read_error r req e hm hres hread
  · intro body e hread hdec
    exact render_decode_error r req body e hm hres hread hdec
  · intro mc bd hnd
    cases hread : req.contentRead with
    | error e =>
        rw [render_read_error r req e hm hres hread] at hnd
        simp at hnd
    | ok body =>
        cases hdec : r.format_post body with
        | error e =>
            rw [render_decode_error r req body e hm hres hread hdec] at hnd
            simp at hnd
        | ok v =>
            refine ⟨body, v, rfl, hdec, ?_⟩
            rw [render_decode_ok r req body v hm hres hread hdec] at hnd
            exact (RenderOutcome.notDoneYet.inj hnd).2.symm

/-- Witness for c3_body_failures_give_400: a POST whose body read raises,
    and a POST whose body is "not-json" so the decode step raises. -/
theorem c3_body_failures_give_400_witness :
    ((∀ e, (Except.error (PyErr.otherError "io") : Except PyErr String) = Except.error e →
        RestResource.render (jsonPostRes jlOk)
          { method := "POST", contentRead := Except.error (PyErr.otherError "io") }
          = RenderOutcome.errorPage 400 "Malformed HTTP BODY") ∧
     (∀ body e, (Except.error (PyErr.otherError "io") : Except PyErr String) = Except.ok body →
        (jsonPostRes jlOk).format_post body = Except.error e →
        RestResource.render (jsonPostRes jlOk)
          { method := "POST", contentRead := Except.error (PyErr.otherError "io") }
          = RenderOutcome.errorPage 400 "Malformed HTTP BODY") ∧
     (∀ mc bd, RestResource.render (jsonPostRes jlOk)
          { method := "POST", contentRead := Except.error (PyErr.otherError "io") }
          = RenderOutcome.notDoneYet mc bd →
        ∃ body v, (Except.error (PyErr.otherError "io") : Except PyErr String) = Except.ok body ∧
          (jsonPostRes jlOk).format_post body = Except.ok v ∧ bd = some v)) ∧
    ((∀ e, (Except.ok "not-json" : Except PyErr String) = Except.error e →
        RestResource.render (jsonPostRes jlOk)
          { method := "POST", contentRead := Except.ok "not-json" }
          = RenderOutcome.errorPage 400 "Malformed HTTP BODY") ∧
     (∀ body e, (Except.ok "not-json" : Except PyErr String) = Except.ok body →
        (jsonPostRes jlOk).format_post body = Except.error e →
        RestResource.render (jsonPostRes jlOk)
          { method := "POST", contentRead := Except.ok "not-json" }
          = RenderOutcome.errorPage 400 "Malformed HTTP BODY") ∧
     (∀ mc bd, RestResource.render (jsonPostRes jlOk)
          { method := "POST", contentRead := Except.ok "not-json" }
          = RenderOutcome.notDoneYet mc bd →
        ∃ body v, (Except.ok "not-json" : Except PyErr String) = Except.ok body ∧
          (jsonPostRes jlOk).format_post body = Except.ok v ∧ bd = some v)) :=
  ⟨c3_body_failures_give_400 (jsonPostRes jlOk)
      { method := "POST", contentRead := Except.error (PyErr.otherError "io") }
      (Or.inl rfl) (by decide),
   c3_body_failures_give_400 (jsonPostRes jlOk)
      { method := "POST", contentRead := Except.ok "not-json" }
      (Or.inl rfl) (by decide)⟩

/-- C6 (code bug): for a well-formed XML body that passes the prefix
    check and parses successfully, XmlResource._format_post returns None
    — the parsed body_data is computed but never returned — and dispatch
    hands that None to the handler as the decoded body instead of the
    element-tree value. -/
theorem c6_xml_decode_returns_none :
    XmlResource._format_post fsOk "<?xml version=\"1.0\"?><a/>" = Except.ok PyObj.pynone ∧
    RestResource.render (xmlPostRes fsOk)
        { method := "POST", contentRead := Except.ok "<?xml version=\"1.0\"?><a/>" }
      = RenderOutcome.notDoneYet "rest_POST" (some PyObj.pynone) :=
  ⟨rfl, rfl⟩

/-- C8 (code bug): with displayTracebacks disabled the JSON error
    renderer nulls the detail field of its response dict (and exposes it
    when enabled), but the XML error renderer re-exposes the detail
    whenever its log flag is set (the constructor default), because the
    policy-gated local is overwritten inside the logging block. -/
theorem c8_xml_detail_leak :
    dictGet "detail" (JsonErrorPage.renderDict
        { code := 500, brief := "Unhandled Error", detail := "boom", log := true }
        { displayTracebacks := false }) = some JVal.pynone ∧
    dictGet "detail" (JsonErrorPage.renderDict
        { code := 500, brief := "Unhandled Error", detail := "boom", log := true }
        { displayTracebacks := true }) = some (JVal.str "boom") ∧
    XmlErrorPage.render
        { code := 500, brief := "Unhandled Error", detail := "boom", log := true }
        { displayTracebacks := false }
      = { code := "500", brief := "Unhandled Error", detail := some "boom" } :=
  ⟨rfl, rfl, rfl⟩

/-- C7: a body whose first non-whitespace character is outside the
    format's valid start set ('\x7b' or '[' for JSON; the '<?xml' token
    for XML) makes decode fail with the fast pre-check ValueError — for
    every possible full parser, i.e. before any structural parse is
    attempted — and dispatch turns that into the 400 Malformed HTTP BODY
    page for every resource using the codec, so the handler is never
    invoked with such a body. -/
theorem c7_start_token_precheck (jl : String → Except PyErr JVal)
    (fs : String → Except PyErr XmlElem) (bodyJ bodyX : String)
    (cJ : Char) (restJ : List Char)
    (hJ : (pyLstrip bodyJ).data = cJ :: restJ)
    (hJ1 : cJ ≠ '{') (hJ2 : cJ ≠ '[')
    (hX : pyStartswith (pyTake 5 (pyLstrip bodyX)) "<?xml" = false) :
    JsonResource._format_post jl bodyJ
      = Except.error (PyErr.valueError
          ("Invalid JSON first character != \x7b or [... \nGot: " ++ pyTake 60 bodyJ ++ " ...")) ∧
    XmlResource._format_post fs bodyX
      = Except.error (PyErr.valueError
          ("Invalid XML post body does not start with != <?xml... \nGot: " ++ pyTake 60 bodyX ++ " ...")) ∧
    (∀ r : Resource,
        r.format_post = (fun b => (JsonResource._format_post jl b).map PyObj.jval) →
        (r.restHandlers.contains "POST" || r.hasRest) = true →
        RestResource.render r { method := "POST", contentRead := Except.ok bodyJ }
          = RenderOutcome.errorPage 400 "Malformed HTTP BODY") ∧
    (∀ r : Resource,
        r.format_post = XmlResource._format_post fs →
        (r.restHandlers.contains "POST" || r.hasRest) = true →
        RestResource.render r { method := "POST", contentRead := Except.ok bodyX }
          = RenderOutcome.errorPage 400 "Malformed HTTP BODY") := by
  have hjson : JsonResource._format_post jl bodyJ
      = Except.error (PyErr.valueError
          ("Invalid JSON first character != \x7b or [... \nGot: " ++ pyTake 60 bodyJ ++ " ...")) := by
    simp [JsonResource._format_post, hJ, hJ1, hJ2]
  have hxml : XmlResource._format_post fs bodyX
      = Except.error (PyErr.valueError
          ("Invalid XML post body does not start with != <?xml... \nGot: " ++ pyTake 60 bodyX ++ " ...")) := by
    simp [XmlResource._format_post, hX]
  refine ⟨hjson, hxml, ?_, ?_⟩
  · intro r hfp hres
    exact render_decode_error r { method := "POST", contentRead := Except.ok bodyJ } bodyJ
      (PyErr.valueError
        ("Invalid JSON first character != \x7b or [... \nGot: " ++ pyTake 60 bodyJ ++ " ..."))
      (Or.inl rfl) hres rfl (by simp only [hfp, hjson, Except.map])
  · intro r hfp hres
    exact render_decode_error r { method := "POST", contentRead := Except.ok bodyX } bodyX
      (PyErr.valueError
        ("Invalid XML post body does not start with != <?xml... \nGot: " ++ pyTake 60 bodyX ++ " ..."))
      (Or.inl rfl) hres rfl (by simp only [hfp, hxml])

/-- Witness for c7_start_token_precheck: the JSON body "not-json" (first
    character n) and the XML body "not-xml". -/
theorem c7_start_token_precheck_witness :
    JsonResource._format_post jlOk "not-json"
      = Except.error (PyErr.valueError
          ("Invalid JSON first character != \x7b or [... \nGot: " ++ pyTake 60 "not-json" ++ " ...")) ∧
    XmlResource._format_post fsOk "not-xml"
      = Except.error (PyErr.valueError
          ("Invalid XML post body does not start with != <?xml... \nGot: " ++ pyTake 60 "not-xml" ++ " ...")) ∧
    (∀ r : Resource,
        r.format_post = (fun b => (JsonResource._format_post jlOk b).map PyObj.jval) →
        (r.restHandlers.contains "POST" || r.hasRest) = true →
        RestResource.render r { method := "POST", contentRead := Except.ok "not-json" }
          = RenderOutcome.errorPage 400 "Malformed HTTP BODY") ∧
    (∀ r : Resource,
        r.format_post = XmlResource._format_post fsOk →
        (r.restHandlers.contains "POST" || r.hasRest) = true →
        RestResource.render r { method := "POST", contentRead := Except.ok "not-xml" }
          = RenderOutcome.errorPage 400 "Malformed HTTP BODY") :=
  c7_start_token_precheck jlOk fsOk "not-json" "not-xml" 'n'
    ['o', 't', '-', 'j', 's', 'o', 'n'] (by decide) (by decide) (by decide) (by decide)

/-- C9 counterexample: _format_response does not sort keys, so the two
    mapping-equal dicts a-then-b and b-then-a encode to different byte
    strings. -/
theorem c9_no_stable_key_order :
    dictEquiv [("a", JVal.int 1), ("b", JVal.int 2)]
              [("b", JVal.int 2), ("a", JVal.int 1)] = true ∧
    JsonResource._format_response (JVal.dict [("a", JVal.int 1), ("b", JVal.int 2)])
      = Except.ok "\x7b\x22a\x22: 1, \x22b\x22: 2\x7d" ∧
    JsonResource._format_response (JVal.dict [("b", JVal.int 2), ("a", JVal.int 1)])
      = Except.ok "\x7b\x22b\x22: 2, \x22a\x22: 1\x7d" ∧
    ("\x7b\x22a\x22: 1, \x22b\x22: 2\x7d" : String) ≠ "\x7b\x22b\x22: 2, \x22a\x22: 1\x7d" :=
  ⟨by decide, rfl, rfl, by decide⟩

mutual

/-- json.dumps with allow_nan=False fails with the out-of-range
    ValueError exactly when the value contains a non-finite float. -/
theorem json_dumps_nf : ∀ v : JVal,
    (containsNF v = true →
        json_dumps false v = Except.error (PyErr.valueError outOfRangeMsg)) ∧
    (containsNF v = false → ∃ s, json_dumps false v = Except.ok s)
  | JVal.pynone => ⟨by simp [containsNF], fun _ => ⟨"null", rfl⟩⟩
  | JVal.bool b => ⟨by simp [containsNF], fun _ => ⟨_, rfl⟩⟩
  | JVal.int n => ⟨by simp [containsNF], fun _ => ⟨_, rfl⟩⟩
  | JVal.str s => ⟨by simp [containsNF], fun _ => ⟨_, rfl⟩⟩
  | JVal.float f => by
      cases f <;>
        simp [containsNF, PyFloat.isFinite, json_dumps, dumpsFloat]
  | JVal.list xs => by
      have hl := json_dumpsList_nf xs
      constructor
      · intro h
        have h2 : containsNFList xs = true := by simpa [containsNF] using h
        simp only [json_dumps, hl.1 h2]
        rfl
      · intro h
        have h2 : containsNFList xs = false := by simpa [containsNF] using h
        obtain ⟨parts, hp⟩ := hl.2 h2
        refine ⟨"[" ++ String.intercalate ", " parts ++ "]", ?_⟩
        simp only [json_dumps, hp]
        rfl
  | JVal.dict kvs => by
      have hl := json_dumpsItems_nf kvs
      constructor
      · intro h
        have h2 : containsNFItems kvs = true := by simpa [containsNF] using h
        simp only [json_dumps, hl.1 h2]
        rfl
      · intro h
        have h2 : containsNFItems kvs = false := by simpa [containsNF] using h
        obtain ⟨parts, hp⟩ := hl.2 h2
        refine ⟨"\x7b" ++ String.intercalate ", " parts ++ "\x7d", ?_⟩
        simp only [json_dumps, hp]
        rfl

/-- List counterpart of json_dumps_nf. -/
theorem json_dumpsList_nf : ∀ xs : List JVal,
    (containsNFList xs = true →
        json_dumpsList false xs = Except.error (PyErr.valueError outOfRangeMsg)) ∧
    (containsNFList xs = false → ∃ parts, json_dumpsList false xs = Except.ok parts)
  | [] => ⟨by simp [containsNFList], fun _ => ⟨[], rfl⟩⟩
  | x :: xs => by
      have hv := json_dumps_nf x
      have hl := json_dumpsList_nf xs
      constructor
      · intro h
        by_cases hx : containsNF x = true
        · simp only [json_dumpsList, hv.1 hx]
          rfl
        · have hx2 : containsNF x = false := by simpa using hx
          have hxs : containsNFList xs = true := by
            simpa [containsNFList, hx2] using h
          obtain ⟨s, hs⟩ := hv.2 hx2
          simp only [json_dumpsList, hs, hl.1 hxs]
          rfl
      · intro h
        have h2 : containsNF x = false ∧ containsNFList xs = false := by
          simpa [containsNFList] using h
        obtain ⟨s, hs⟩ := hv.2 h2.1
        obtain ⟨parts, hp⟩ := hl.2 h2.2
        refine ⟨s :: parts, ?_⟩
        simp only [json_dumpsList, hs, hp]
        rfl

/-- Dict-entry counterpart of json_dumps_nf. -/
theorem json_dumpsItems_nf : ∀ kvs : List (String × JVal),
    (containsNFItems kvs = true →
        json_dumpsItems false kvs = Except.error (PyErr.valueError outOfRangeMsg)) ∧
    (containsNFItems kvs = false → ∃ parts, json_dumpsItems false kvs = Except.ok parts)
  | [] => ⟨by simp [containsNFItems], fun _ => ⟨[], rfl⟩⟩
  | (k, v) :: kvs => by
      have hv := json_dumps_nf v
      have hl := json_dumpsItems_nf kvs
      constructor
      · intro h
        by_cases hx : containsNF v = true
        · simp only [json_dumpsItems, hv.1 hx]
          rfl
        · have hx2 : containsNF v = false := by simpa using hx
          have hxs : containsNFItems kvs = true := by
            simpa [containsNFItems, hx2] using h
          obtain ⟨s, hs⟩ := hv.2 hx2
          simp only [json_dumpsItems, hs, hl.1 hxs]
          rfl
      · intro h
        have h2 : containsNF v = false ∧ containsNFItems kvs = false := by
          simpa [containsNFItems] using h
        obtain ⟨s, hs⟩ := hv.2 h2.1
        obtain ⟨parts, hp⟩ := hl.2 h2.2
        refine ⟨("\x22" ++ k ++ "\x22" ++ ": " ++ s) :: parts, ?_⟩
        simp only [json_dumpsItems, hs, hp]
        rfl

end

/-- C9 (amended): _format_response rejects non-finite numeric values
    wherever they occur in the response, raising the allow_nan
    ValueError; but it does not sort map keys — the output follows the
    dict's iteration order, so mapping-equal dicts need not encode to
    identical bytes (see the counterexample). -/
theorem c9_encode_rejects_nonfinite (v : JVal) (h : containsNF v = true) :
    JsonResource._format_response v = Except.error (PyErr.valueError outOfRangeMsg) :=
  (json_dumps_nf v).1 h

/-- Witness for c9_encode_rejects_nonfinite: a dict holding a NaN. -/
theorem c9_encode_rejects_nonfinite_witness :
    containsNF (JVal.dict [("x", JVal.float PyFloat.nan)]) = true ∧
    JsonResource._format_response (JVal.dict [("x", JVal.float PyFloat.nan)])
      = Except.error (PyErr.valueError outOfRangeMsg) :=
  ⟨rfl, c9_encode_rejects_nonfinite _ rfl⟩

/-- C10: an empty or whitespace-only POST/PUT body to a JsonResource
    makes the fast pre-check raise IndexError (body.lstrip()[0] on an
    empty string) — not the documented ValueError — and the dispatch
    engine's catch-all around _format_post converts it into the 400
    Malformed HTTP BODY page, never invoking the handler. -/
theorem c10_empty_body_gives_400 (jl : String → Except PyErr JVal) (r : Resource)
    (req : RequestIn) (body : String)
    (hws : (pyLstrip body).data = [])
    (hfp : r.format_post = fun b => (JsonResource._format_post jl b).map PyObj.jval)
    (hm : req.method = "POST" ∨ req.method = "PUT")
    (hres : (r.restHandlers.contains req.method || r.hasRest) = true)
    (hread : req.contentRead = Except.ok body) :
    JsonResource._format_post jl body = Except.error PyErr.indexError ∧
    (∀ m, PyErr.indexError ≠ PyErr.valueError m) ∧
    RestResource.render r req = RenderOutcome.errorPage 400 "Malformed HTTP BODY" ∧
    (∀ mc bd, RestResource.render r req ≠ RenderOutcome.notDoneYet mc bd) := by
  have hdecode : JsonResource._format_post jl body = Except.error PyErr.indexError := by
    simp [JsonResource._format_post, hws]
  have hfpe : r.format_post body = Except.error PyErr.indexError := by
    simp only [hfp, hdecode, Except.map]
  have hrender := render_decode_error r req body PyErr.indexError hm hres hread hfpe
  refine ⟨hdecode, ?_, hrender, ?_⟩
  · intro m
    simp
  · intro mc bd
    rw [hrender]
    simp

/-- Witness for c10_empty_body_gives_400: a POST of the one-space body. -/
theorem c10_empty_body_gives_400_witness :
    JsonResource._format_post jlOk " " = Except.error PyErr.indexError ∧
    (∀ m, PyErr.indexError ≠ PyErr.valueError m) ∧
    RestResource.render (jsonPostRes jlOk) { method := "POST", contentRead := Except.ok " " }
      = RenderOutcome.errorPage 400 "Malformed HTTP BODY" ∧
    (∀ mc bd, RestResource.render (jsonPostRes jlOk)
        { method := "POST", contentRead := Except.ok " " }
      ≠ RenderOutcome.notDoneYet mc bd) :=
  c10_empty_body_gives_400 jlOk (jsonPostRes jlOk)
    { method := "POST", contentRead := Except.ok " " } " "
    (by decide) rfl (Or.inl rfl) (by decide) rfl
